import Mathlib

/-!
Verification of the Whack-a-Zombie game (src/whack_a_zombie.py).

The file shallowly embeds the game's core: the zombie lifecycle state
machine (class `Zombie`), the spawn scheduler and the input/scoring
coordinator from `main`'s frame loop.  Timestamps are modelled as integers
(pygame's millisecond tick counter).  The clock is an external input: the
frame loop queries it once per frame (`now`), and `Zombie.__init__` and
`Zombie.register_hit` each contain their own `pygame.time.get_ticks()`
call, modelled here as an explicit `ticks` argument supplied at the call
site.  Random draws (`random.choice(SPAWN_POINTS)`, `random.randint`) are
modelled as oracle inputs; theorems that depend on their ranges take the
documented range as a hypothesis.
-/

namespace WhackAZombie

/-- Config constant `SPAWN_MIN_MS = 800` (line 32 of the source). -/
def SPAWN_MIN_MS : ℤ := 800

/-- Config constant `SPAWN_MAX_MS = 1500` (line 33 of the source). -/
def SPAWN_MAX_MS : ℤ := 1500

/-- The fixed spawn-point list `SPAWN_POINTS` (lines 36-40 of the source). -/
def SPAWN_POINTS : List (ℤ × ℤ) :=
  [(150, 160), (300, 140), (450, 170), (600, 150),
   (750, 170), (220, 320), (420, 300), (620, 330),
   (780, 310), (320, 480), (500, 470), (700, 500)]

/-- `ZOMBIE_BASE_RADIUS = 48` (line 43 of the source). -/
def ZOMBIE_BASE_RADIUS : ℤ := 48

/-- `SPAWN_ANIM_MS = 180` (line 55 of the source). -/
def SPAWN_ANIM_MS : ℤ := 180

/-- `DESPAWN_ANIM_MS = 220` (line 56 of the source). -/
def DESPAWN_ANIM_MS : ℤ := 220

/-- pygame key code for the escape key. -/
def K_ESCAPE : ℤ := 27

/-- pygame key code for the `m` key. -/
def K_m : ℤ := 109

/-- The four lifecycle states of a zombie: the string field
`self.state` of class `Zombie` ranges over exactly these values
(comment at line 89: spawning -> alive -> despawning -> dead). -/
inductive ZState
  | spawning
  | alive
  | despawning
  | dead
deriving DecidableEq

/-- Position in the lifecycle sequence Spawning < Alive < Despawning < Dead. -/
def stateIdx : ZState → ℕ
  | .spawning => 0
  | .alive => 1
  | .despawning => 2
  | .dead => 3

/-- The fields of class `Zombie` (lines 84-91 of the source). -/
structure Zombie where
  x : ℤ
  y : ℤ
  radius : ℤ
  spawn_time : ℤ
  lifetime_ms : ℤ
  state : ZState
  hit_registered : Bool
  state_time : ℤ
deriving DecidableEq

/-- `Zombie.__init__(self, pos)` (lines 84-91).  `ticks` is the value the
constructor's own `pygame.time.get_ticks()` call returns; `lifetime` is
the `random.randint(SPAWN_MIN_MS, SPAWN_MAX_MS)` draw. -/
def Zombie.init (pos : ℤ × ℤ) (ticks : ℤ) (lifetime : ℤ) : Zombie :=
  { x := pos.1
    y := pos.2
    radius := ZOMBIE_BASE_RADIUS
    spawn_time := ticks
    lifetime_ms := lifetime
    state := .spawning
    hit_registered := false
    state_time := ticks }

/-- `Zombie.update(self, now)` (lines 93-104): the if/elif chain on
`self.state`. -/
def Zombie.update (z : Zombie) (now : ℤ) : Zombie :=
  if z.state = ZState.spawning then
    if now - z.state_time ≥ SPAWN_ANIM_MS then
      { z with state := .alive, state_time := now }
    else z
  else if z.state = ZState.alive then
    if now - z.spawn_time ≥ z.lifetime_ms then
      { z with state := .despawning, state_time := now }
    else z
  else if z.state = ZState.despawning then
    if now - z.state_time ≥ DESPAWN_ANIM_MS then
      { z with state := .dead }
    else z
  else z

/-- `Zombie.is_clickable(self)` (lines 106-107):
`self.state in ("spawning", "alive") and not self.hit_registered`. -/
def Zombie.is_clickable (z : Zombie) : Bool :=
  (z.state = ZState.spawning || z.state = ZState.alive) && !z.hit_registered

/-- `Zombie.hit_test(self, pos)` (lines 109-111):
`(mx - x)**2 + (my - y)**2 <= (radius * 0.95)**2`.  The source literal
`0.95` denotes the exact rational 19/20; the comparison is stated here
with denominators cleared (multiplied by 20^2 = 400, so the threshold
`(radius * 0.95)^2 = radius^2 * 361 / 400` becomes exact integer
arithmetic).  For the integer coordinates and radius the game uses, this
agrees with the source's binary floating-point comparison: the squared
distance is an integer and the threshold 361 * 48^2 / 400 = 2079.36
admits no integer ties.  Theorem `hit_test_dist` below relates this to
the Euclidean distance over ℝ. -/
def Zombie.hit_test (z : Zombie) (pos : ℤ × ℤ) : Bool :=
  decide (400 * ((pos.1 - z.x) ^ 2 + (pos.2 - z.y) ^ 2) ≤ 361 * z.radius ^ 2)

/-- `Zombie.register_hit(self)` (lines 113-117).  `ticks` is the value
returned by the method's own `pygame.time.get_ticks()` call. -/
def Zombie.register_hit (z : Zombie) (ticks : ℤ) : Zombie :=
  { z with hit_registered := true, state := .despawning, state_time := ticks }

/-- The input events `main` reacts to (lines 200-222): quit, key-down
with a key code, and mouse-button-down with a button number and a
position. -/
inductive Event
  | quit
  | keyDown (key : ℤ)
  | mouseDown (button : ℕ) (pos : ℤ × ℤ)
deriving DecidableEq

/-- The mutable state of `main`'s loop (lines 180-186 and 196):
score counters, the single zombie slot, the spawn timer, the run flag and
the audio flags. -/
structure Game where
  hits : ℕ
  misses : ℕ
  zombie : Option Zombie
  next_spawn_time : ℤ
  running : Bool
  is_muted : Bool
  sound_supported : Bool
deriving DecidableEq

/-- The state of `main` just before the loop (lines 179-186):
`hits = 0`, `misses = 0`, `zombie = None`, `next_spawn_time = 0`,
`running = True`, `is_muted = False`; `sound_supported` comes from
`try_make_sound()`. -/
def initialGame (sound_supported : Bool) : Game :=
  { hits := 0
    misses := 0
    zombie := none
    next_spawn_time := 0
    running := true
    is_muted := false
    sound_supported := sound_supported }

/-- The `MOUSEBUTTONDOWN and event.button == 1` branch of the event loop
(lines 208-222).  `ticks` is the value `pygame.time.get_ticks()` would
return inside `register_hit` if it is called.  The sound playback
(lines 213-217) has no effect on this state and is omitted. -/
def handleMouseDown (g : Game) (pos : ℤ × ℤ) (ticks : ℤ) : Game :=
  match g.zombie with
  | some z =>
      if z.is_clickable && z.hit_test pos then
        { g with zombie := some (z.register_hit ticks), hits := g.hits + 1 }
      else if z.state = ZState.spawning || z.state = ZState.alive then
        { g with misses := g.misses + 1 }
      else g
  | none => g

/-- One iteration of the event loop body (lines 200-222).  Each event is
paired with the tick value a mid-event `pygame.time.get_ticks()` call
would return. -/
def handleEvent (g : Game) (ev : Event × ℤ) : Game :=
  match ev.1 with
  | .quit => { g with running := false }
  | .keyDown k =>
      if k = K_ESCAPE then { g with running := false }
      else if k = K_m && g.sound_supported then { g with is_muted := !g.is_muted }
      else g
  | .mouseDown b pos =>
      if b = 1 then handleMouseDown g pos ev.2 else g

/-- The per-frame external inputs: the frame-start clock reading `now`
(line 198), the drained event queue with the mid-event clock oracle, the
clock reading the `Zombie` constructor would see, and the three random
draws (`random.choice(SPAWN_POINTS)`, `random.randint(800, 1500)`,
`random.randint(220, 520)`). -/
structure Frame where
  now : ℤ
  events : List (Event × ℤ)
  spawn_pos : ℤ × ℤ
  spawn_tick : ℤ
  spawn_lifetime : ℤ
  gap : ℤ

/-- The spawn logic (lines 224-227): `if zombie is None and now >=
next_spawn_time: zombie = Zombie(random.choice(SPAWN_POINTS))`. -/
def spawnStep (g : Game) (f : Frame) : Game :=
  if g.zombie = none ∧ f.now ≥ g.next_spawn_time then
    { g with zombie := some (Zombie.init f.spawn_pos f.spawn_tick f.spawn_lifetime) }
  else g

/-- The update logic (lines 229-235): `zombie.update(now)`, and on death
release the slot and set `next_spawn_time = now + random.randint(220, 520)`. -/
def updateStep (g : Game) (f : Frame) : Game :=
  match g.zombie with
  | none => g
  | some z =>
      let z2 := z.update f.now
      if z2.state = ZState.dead then
        { g with zombie := none, next_spawn_time := f.now + f.gap }
      else
        { g with zombie := some z2 }

/-- One full frame iteration of `main`'s loop (lines 197-261), drawing
omitted: drain the event queue, run the spawn logic, then the update
logic. -/
def frameStep (g : Game) (f : Frame) : Game :=
  updateStep (spawnStep (f.events.foldl handleEvent g) f) f

/-- Run a sequence of frames. -/
def runFrames (g : Game) (fs : List Frame) : Game :=
  fs.foldl frameStep g

/-- The HUD accuracy (lines 245-246):
`acc = (hits / total * 100.0) if total > 0 else 0.0`, with `total = hits
+ misses`; the float arithmetic is modelled over the rationals. -/
def accuracy (hits misses : ℕ) : ℚ :=
  let total := hits + misses
  if total > 0 then (hits : ℚ) / (total : ℚ) * 100 else 0

/-- An operation applied to a single zombie during its life: an
`update(now)` tick or a `register_hit()` call (with its internal clock
reading). -/
inductive ZOp
  | update (now : ℤ)
  | hit (ticks : ℤ)

/-- Apply one operation to a zombie. -/
def Zombie.applyOp (z : Zombie) : ZOp → Zombie
  | .update now => z.update now
  | .hit ticks => z.register_hit ticks

/-- Apply a sequence of operations to a zombie. -/
def Zombie.runOps (z : Zombie) (ops : List ZOp) : Zombie :=
  ops.foldl Zombie.applyOp z

/-- A trace of operations stays within the zombie's life: `register_hit`
is only invoked before the zombie is dead (the game in fact only calls it
while `is_clickable()` holds; the invariant needs only non-deadness). -/
def traceInLife (z : Zombie) : List ZOp → Bool
  | [] => true
  | op :: rest =>
      (match op with
       | .update _ => true
       | .hit _ => z.state ≠ ZState.dead) && traceInLife (z.applyOp op) rest

/-- The game's single-slot invariant: the owned zombie, when present, is
not dead (a dead zombie is released within the frame that killed it). -/
def ownedNotDead (g : Game) : Bool :=
  match g.zombie with
  | none => true
  | some z => z.state ≠ ZState.dead

/-- A frame at time `t` with an empty event queue (concrete scenario
input; the spawn oracle fields are only consulted if a spawn occurs). -/
def noClickFrame (t : ℤ) : Frame :=
  { now := t, events := [], spawn_pos := (150, 160), spawn_tick := t,
    spawn_lifetime := 1000, gap := 300 }

/-- The frame sequence of the no-click scenario: the zombie spawns at
`t = 0` with lifetime 1000 ms and is then only observed. -/
def noClickFrames : List Frame :=
  [noClickFrame 0, noClickFrame 50, noClickFrame 179, noClickFrame 180,
   noClickFrame 999, noClickFrame 1000, noClickFrame 1219, noClickFrame 1220]

/-- A game state owning a freshly spawned zombie at (150, 160) with
lifetime 1000 ms (concrete scenario input). -/
def clickGame : Game :=
  { initialGame false with zombie := some (Zombie.init (150, 160) 0 1000) }

/-- A frame at `now = 100` whose queue holds one primary-button click on
the zombie's centre; `tick` is the clock reading that the
`pygame.time.get_ticks()` call inside `register_hit` returns. -/
def clickFrame (tick : ℤ) : Frame :=
  { now := 100, events := [(Event.mouseDown 1 (150, 160), tick)],
    spawn_pos := (150, 160), spawn_tick := 100, spawn_lifetime := 1000, gap := 300 }

/- ------------------------------------------------------------------ -/
/- Helper lemmas                                                       -/
/- ------------------------------------------------------------------ -/

lemma handleMouseDown_hits_le (g : Game) (pos : ℤ × ℤ) (t : ℤ) :
    g.hits ≤ (handleMouseDown g pos t).hits := by
  unfold handleMouseDown
  cases hz : g.zombie <;> simp [hz]
  split
  · exact Nat.le_succ _
  · split <;> simp

lemma handleMouseDown_misses_le (g : Game) (pos : ℤ × ℤ) (t : ℤ) :
    g.misses ≤ (handleMouseDown g pos t).misses := by
  unfold handleMouseDown
  cases hz : g.zombie <;> simp [hz]
  split
  · exact le_refl _
  · split
    · exact Nat.le_succ _
    · exact le_refl _

lemma handleMouseDown_next_spawn_time (g : Game) (pos : ℤ × ℤ) (t : ℤ) :
    (handleMouseDown g pos t).next_spawn_time = g.next_spawn_time := by
  unfold handleMouseDown
  cases hz : g.zombie <;> simp [hz]
  split
  · simp
  · split <;> simp

lemma handleMouseDown_zombie (g : Game) (pos : ℤ × ℤ) (t : ℤ) :
    (handleMouseDown g pos t).zombie = g.zombie ∨
      ∃ z, g.zombie = some z ∧
        (handleMouseDown g pos t).zombie = some (z.register_hit t) := by
  unfold handleMouseDown
  cases hz : g.zombie with
  | none => left; simp [hz]
  | some z =>
      simp only [hz]
      split
      · right; exact ⟨z, rfl, rfl⟩
      · left; split <;> simp [hz]

lemma handleEvent_hits_le (g : Game) (ev : Event × ℤ) :
    g.hits ≤ (handleEvent g ev).hits := by
  rcases ev with ⟨e, t⟩
  cases e with
  | quit => simp [handleEvent]
  | keyDown k =>
      simp only [handleEvent]
      split
      · simp
      · split <;> simp
  | mouseDown b pos =>
      simp only [handleEvent]
      split
      · exact handleMouseDown_hits_le g pos t
      · simp

lemma handleEvent_misses_le (g : Game) (ev : Event × ℤ) :
    g.misses ≤ (handleEvent g ev).misses := by
  rcases ev with ⟨e, t⟩
  cases e with
  | quit => simp [handleEvent]
  | keyDown k =>
      simp only [handleEvent]
      split
      · simp
      · split <;> simp
  | mouseDown b pos =>
      simp only [handleEvent]
      split
      · exact handleMouseDown_misses_le g pos t
      · simp

lemma handleEvent_next_spawn_time (g : Game) (ev : Event × ℤ) :
    (handleEvent g ev).next_spawn_time = g.next_spawn_time := by
  rcases ev with ⟨e, t⟩
  cases e with
  | quit => simp [handleEvent]
  | keyDown k =>
      simp only [handleEvent]
      split
      · simp
      · split <;> simp
  | mouseDown b pos =>
      simp only [handleEvent]
      split
      · exact handleMouseDown_next_spawn_time g pos t
      · simp

lemma handleEvent_zombie (g : Game) (ev : Event × ℤ) :
    (handleEvent g ev).zombie = g.zombie ∨
      ∃ z, g.zombie = some z ∧
        (handleEvent g ev).zombie = some (z.register_hit ev.2) := by
  rcases ev with ⟨e, t⟩
  cases e with
  | quit => left; simp [handleEvent]
  | keyDown k =>
      left
      simp only [handleEvent]
      split
      · simp
      · split <;> simp
  | mouseDown b pos =>
      simp only [handleEvent]
      split
      · exact handleMouseDown_zombie g pos t
      · left; simp

lemma foldl_handleEvent_hits_le (evs : List (Event × ℤ)) :
    ∀ g : Game, g.hits ≤ (evs.foldl handleEvent g).hits := by
  induction evs with
  | nil => intro g; simp
  | cons ev rest ih =>
      intro g
      exact le_trans (handleEvent_hits_le g ev) (ih (handleEvent g ev))

lemma foldl_handleEvent_misses_le (evs : List (Event × ℤ)) :
    ∀ g : Game, g.misses ≤ (evs.foldl handleEvent g).misses := by
  induction evs with
  | nil => intro g; simp
  | cons ev rest ih =>
      intro g
      exact le_trans (handleEvent_misses_le g ev) (ih (handleEvent g ev))

lemma foldl_handleEvent_next_spawn_time (evs : List (Event × ℤ)) :
    ∀ g : Game, (evs.foldl handleEvent g).next_spawn_time = g.next_spawn_time := by
  induction evs with
  | nil => intro g; simp
  | cons ev rest ih =>
      intro g
      rw [List.foldl_cons, ih (handleEvent g ev), handleEvent_next_spawn_time]

lemma foldl_handleEvent_zombie_none (evs : List (Event × ℤ)) :
    ∀ g : Game, g.zombie = none → (evs.foldl handleEvent g).zombie = none := by
  induction evs with
  | nil => intro g h; simpa using h
  | cons ev rest ih =>
      intro g h
      rw [List.foldl_cons]
      apply ih
      rcases handleEvent_zombie g ev with h1 | ⟨z, hz, _⟩
      · rw [h1, h]
      · rw [h] at hz; cases hz

lemma spawnStep_hits (g : Game) (f : Frame) : (spawnStep g f).hits = g.hits := by
  unfold spawnStep; split <;> simp

lemma spawnStep_misses (g : Game) (f : Frame) : (spawnStep g f).misses = g.misses := by
  unfold spawnStep; split <;> simp

lemma updateStep_hits (g : Game) (f : Frame) : (updateStep g f).hits = g.hits := by
  unfold updateStep
  cases hz : g.zombie <;> simp [hz]
  split <;> simp

lemma updateStep_misses (g : Game) (f : Frame) : (updateStep g f).misses = g.misses := by
  unfold updateStep
  cases hz : g.zombie <;> simp [hz]
  split <;> simp

lemma frameStep_hits_le (g : Game) (f : Frame) : g.hits ≤ (frameStep g f).hits := by
  unfold frameStep
  rw [updateStep_hits, spawnStep_hits]
  exact foldl_handleEvent_hits_le f.events g

lemma frameStep_misses_le (g : Game) (f : Frame) : g.misses ≤ (frameStep g f).misses := by
  unfold frameStep
  rw [updateStep_misses, spawnStep_misses]
  exact foldl_handleEvent_misses_le f.events g

lemma runFrames_hits_le (fs : List Frame) :
    ∀ g : Game, g.hits ≤ (runFrames g fs).hits := by
  induction fs with
  | nil => intro g; simp [runFrames]
  | cons f rest ih =>
      intro g
      exact le_trans (frameStep_hits_le g f) (ih (frameStep g f))

lemma runFrames_misses_le (fs : List Frame) :
    ∀ g : Game, g.misses ≤ (runFrames g fs).misses := by
  induction fs with
  | nil => intro g; simp [runFrames]
  | cons f rest ih =>
      intro g
      exact le_trans (frameStep_misses_le g f) (ih (frameStep g f))

lemma update_hit_registered (z : Zombie) (now : ℤ) :
    (z.update now).hit_registered = z.hit_registered := by
  unfold Zombie.update
  cases hz : z.state <;> simp [hz] <;> split <;> rfl

lemma applyOp_hit_registered (z : Zombie) (op : ZOp) (h : z.hit_registered = true) :
    (z.applyOp op).hit_registered = true := by
  cases op with
  | update now => rw [Zombie.applyOp, update_hit_registered]; exact h
  | hit t => simp [Zombie.applyOp, Zombie.register_hit]

lemma runOps_hit_registered (ops : List ZOp) :
    ∀ z : Zombie, z.hit_registered = true → (z.runOps ops).hit_registered = true := by
  induction ops with
  | nil => intro z h; exact h
  | cons op rest ih =>
      intro z h
      exact ih _ (applyOp_hit_registered z op h)

lemma stateIdx_update_le (z : Zombie) (now : ℤ) :
    stateIdx z.state ≤ stateIdx (z.update now).state := by
  unfold Zombie.update
  cases hz : z.state <;> simp [hz] <;> split <;> simp [stateIdx, hz]

lemma stateIdx_register_hit_le (z : Zombie) (t : ℤ) (h : z.state ≠ ZState.dead) :
    stateIdx z.state ≤ stateIdx (z.register_hit t).state := by
  cases hz : z.state
  case dead => exact absurd hz h
  all_goals simp [Zombie.register_hit, stateIdx]

lemma applyOp_dead_source (z : Zombie) (op : ZOp)
    (h : (z.applyOp op).state = ZState.dead) :
    z.state = ZState.despawning ∨ z.state = ZState.dead := by
  cases op with
  | hit t => simp [Zombie.applyOp, Zombie.register_hit] at h
  | update now =>
      unfold Zombie.applyOp Zombie.update at h
      cases hz : z.state
      case spawning => rw [hz] at h; simp at h; revert h; split <;> simp [hz]
      case alive => rw [hz] at h; simp at h; revert h; split <;> simp [hz]
      case despawning => exact Or.inl rfl
      case dead => exact Or.inr rfl

lemma runOps_stateIdx_le (ops : List ZOp) :
    ∀ z : Zombie, traceInLife z ops = true →
      stateIdx z.state ≤ stateIdx (z.runOps ops).state := by
  induction ops with
  | nil => intro z _; simp [Zombie.runOps]
  | cons op rest ih =>
      intro z h
      simp only [traceInLife, Bool.and_eq_true] at h
      obtain ⟨h1, h2⟩ := h
      have step : stateIdx z.state ≤ stateIdx (z.applyOp op).state := by
        cases op with
        | update now => exact stateIdx_update_le z now
        | hit t =>
            exact stateIdx_register_hit_le z t (of_decide_eq_true h1)
      exact le_trans step (ih _ h2)

lemma ownedNotDead_updateStep (g : Game) (f : Frame) :
    ownedNotDead (updateStep g f) = true := by
  unfold updateStep
  cases hz : g.zombie with
  | none => simp [ownedNotDead, hz]
  | some z =>
      simp only
      split
      · simp [ownedNotDead]
      · next hne => simp [ownedNotDead, hne]

lemma ownedNotDead_frameStep (g : Game) (f : Frame) :
    ownedNotDead (frameStep g f) = true :=
  ownedNotDead_updateStep _ f

lemma runFrames_ownedNotDead (fs : List Frame) :
    ∀ g : Game, ownedNotDead g = true → ownedNotDead (runFrames g fs) = true := by
  induction fs with
  | nil => intro g h; simpa [runFrames] using h
  | cons f rest ih =>
      intro g _
      exact ih _ (ownedNotDead_frameStep g f)

lemma update_spawning_not_dead (z : Zombie) (now : ℤ)
    (h : z.state = ZState.spawning) : (z.update now).state ≠ ZState.dead := by
  unfold Zombie.update
  simp [h]
  split <;> simp [h]

/- ------------------------------------------------------------------ -/
/- Claim theorems                                                      -/
/- ------------------------------------------------------------------ -/

/-- C1.  A primary-button pointer-down event: with an owned clickable
entity whose hitbox contains the click, `register_hit` is applied and
`hits` goes up by exactly one; otherwise, with an owned entity in state
Spawning or Alive, `misses` goes up by exactly one; with no owned entity,
or an owned entity in state Despawning, the state is unchanged. -/
theorem click_scoring_cases (g : Game) (z : Zombie) (pos : ℤ × ℤ) (ticks : ℤ) :
    (g.zombie = some z → z.is_clickable = true → z.hit_test pos = true →
        handleEvent g (Event.mouseDown 1 pos, ticks) =
          { g with zombie := some (z.register_hit ticks), hits := g.hits + 1 }) ∧
    (g.zombie = some z → ¬(z.is_clickable = true ∧ z.hit_test pos = true) →
        (z.state = ZState.spawning ∨ z.state = ZState.alive) →
        handleEvent g (Event.mouseDown 1 pos, ticks) =
          { g with misses := g.misses + 1 }) ∧
    (g.zombie = none → handleEvent g (Event.mouseDown 1 pos, ticks) = g) ∧
    (g.zombie = some z → z.state = ZState.despawning →
        handleEvent g (Event.mouseDown 1 pos, ticks) = g) := by
  refine ⟨?_, ?_, ?_, ?_⟩
  · intro hz hc ht
    simp [handleEvent, handleMouseDown, hz, hc, ht]
  · intro hz hne hst
    have hcond : (z.is_clickable && z.hit_test pos) = false := by
      cases hcb : z.is_clickable <;> cases htb : z.hit_test pos <;> simp_all
    have hstate : (z.state = ZState.spawning || z.state = ZState.alive) = true := by
      rcases hst with h | h <;> simp [h]
    simp [handleEvent, handleMouseDown, hz, hcond, hstate]
  · intro hz
    simp [handleEvent, handleMouseDown, hz]
  · intro hz hst
    have hcl : z.is_clickable = false := by
      simp [Zombie.is_clickable, hst]
    simp [handleEvent, handleMouseDown, hz, hcl, hst]

/-- Witness for C1: a concrete click at the centre of a freshly spawned
zombie scores a hit. -/
theorem click_scoring_cases_witness :
    clickGame.zombie = some (Zombie.init (150, 160) 0 1000) ∧
    (Zombie.init (150, 160) 0 1000).is_clickable = true ∧
    (Zombie.init (150, 160) 0 1000).hit_test (150, 160) = true ∧
    handleEvent clickGame (Event.mouseDown 1 (150, 160), 100) =
      { clickGame with
          zombie := some ((Zombie.init (150, 160) 0 1000).register_hit 100),
          hits := clickGame.hits + 1 } :=
  ⟨rfl, by decide, by decide,
    (click_scoring_cases clickGame (Zombie.init (150, 160) 0 1000) (150, 160)
      100).1 rfl (by decide) (by decide)⟩

/-- C2.  The game's zombie slot is an `Option`: at most one entity is
owned at any instant.  Across an arbitrary sequence of frames (event
handling, spawning, update) the owned entity, when present, is never in
state Dead: an entity that reaches Dead is released within that same
frame's update step, and the slot can only be refilled by a fresh
`Zombie.init`. -/
theorem single_active_entity (g : Game) (fs : List Frame)
    (h : ownedNotDead g = true) :
    ownedNotDead (runFrames g fs) = true ∧
      ∀ z1 z2 : Zombie, (runFrames g fs).zombie = some z1 →
        (runFrames g fs).zombie = some z2 → z1 = z2 := by
  refine ⟨runFrames_ownedNotDead fs g h, ?_⟩
  intro z1 z2 h1 h2
  rw [h1] at h2
  exact (Option.some.injEq _ _).mp h2

/-- Witness for C2: the initial game state (empty slot) run through one
concrete frame, which spawns a zombie. -/
theorem single_active_entity_witness :
    ownedNotDead (initialGame false) = true ∧
    (ownedNotDead (runFrames (initialGame false) [noClickFrame 0]) = true ∧
      ∀ z1 z2 : Zombie,
        (runFrames (initialGame false) [noClickFrame 0]).zombie = some z1 →
        (runFrames (initialGame false) [noClickFrame 0]).zombie = some z2 →
        z1 = z2) :=
  ⟨by decide, single_active_entity (initialGame false) [noClickFrame 0] (by decide)⟩

/-- C3.  Along any interleaving of `update(now)` ticks and
`register_hit()` calls that stays within the entity's life (that is,
`register_hit` is not invoked on an already dead entity — the game only
calls it while `is_clickable()` holds), the lifecycle state never moves
backward in the order Spawning < Alive < Despawning < Dead; moreover no
single operation can reach Dead except from Despawning, so Despawning is
never skipped once the entity is hit or expired. -/
theorem state_forward_only (z : Zombie) (ops : List ZOp)
    (h : traceInLife z ops = true) :
    stateIdx z.state ≤ stateIdx (z.runOps ops).state ∧
      ∀ op : ZOp, (z.applyOp op).state = ZState.dead →
        z.state = ZState.despawning ∨ z.state = ZState.dead :=
  ⟨runOps_stateIdx_le ops z h, fun op => applyOp_dead_source z op⟩

/-- Witness for C3: a freshly spawned zombie ticked to Alive, hit, and
ticked through Despawning to Dead. -/
theorem state_forward_only_witness :
    traceInLife (Zombie.init (150, 160) 0 1000)
        [ZOp.update 180, ZOp.hit 200, ZOp.update 500] = true ∧
    (stateIdx (Zombie.init (150, 160) 0 1000).state ≤
        stateIdx ((Zombie.init (150, 160) 0 1000).runOps
          [ZOp.update 180, ZOp.hit 200, ZOp.update 500]).state ∧
      ∀ op : ZOp,
        ((Zombie.init (150, 160) 0 1000).applyOp op).state = ZState.dead →
          (Zombie.init (150, 160) 0 1000).state = ZState.despawning ∨
          (Zombie.init (150, 160) 0 1000).state = ZState.dead) :=
  ⟨by decide, state_forward_only (Zombie.init (150, 160) 0 1000)
    [ZOp.update 180, ZOp.hit 200, ZOp.update 500] (by decide)⟩

/-- C4.  `is_clickable()` holds exactly when the state is Spawning or
Alive and the hit flag is clear; once `register_hit` has run,
`is_clickable()` is false and stays false under every further sequence of
`update`/`register_hit` operations, so no second click can score against
the same entity. -/
theorem clickable_gate (z : Zombie) (t : ℤ) (ops : List ZOp) :
    (z.is_clickable = true ↔
        ((z.state = ZState.spawning ∨ z.state = ZState.alive) ∧
          z.hit_registered = false)) ∧
    (z.register_hit t).is_clickable = false ∧
    ((z.register_hit t).runOps ops).is_clickable = false := by
  refine ⟨?_, ?_, ?_⟩
  · simp [Zombie.is_clickable]
  · simp [Zombie.is_clickable, Zombie.register_hit]
  · have hreg : ((z.register_hit t).runOps ops).hit_registered = true :=
      runOps_hit_registered ops _ (by simp [Zombie.register_hit])
    simp [Zombie.is_clickable, hreg]

/-- C8.  The HUD accuracy equals 0 when `hits + misses = 0` and
`100 * hits / (hits + misses)` otherwise, and both counters are
monotonically non-decreasing across any run of frames. -/
theorem accuracy_and_monotone :
    (∀ hits misses : ℕ,
        accuracy hits misses =
          if hits + misses = 0 then 0
          else 100 * (hits : ℚ) / ((hits : ℚ) + (misses : ℚ))) ∧
    ∀ (g : Game) (fs : List Frame),
        g.hits ≤ (runFrames g fs).hits ∧ g.misses ≤ (runFrames g fs).misses := by
  constructor
  · intro h m
    unfold accuracy
    by_cases hc : h + m = 0
    · simp [hc]
    · have hpos : 0 < h + m := Nat.pos_of_ne_zero hc
      rw [if_pos hpos, if_neg hc]
      have hne : ((h : ℚ) + (m : ℚ)) ≠ 0 := by
        have : ((h + m : ℕ) : ℚ) ≠ 0 := Nat.cast_ne_zero.mpr hc
        push_cast at this
        exact this
      push_cast
      field_simp
      ring
  · intro g fs
    exact ⟨runFrames_hits_le fs g, runFrames_misses_le fs g⟩

/-- C10.  `next_spawn_time` starts at 0, so on the first frame iteration
(with the clock non-negative) the spawn condition already holds and a
zombie is owned by the end of the frame: there is no initial waiting gap. -/
theorem first_frame_spawn (ss : Bool) (f : Frame) (h : 0 ≤ f.now) :
    (initialGame ss).next_spawn_time = 0 ∧
      ((frameStep (initialGame ss) f).zombie).isSome = true := by
  refine ⟨rfl, ?_⟩
  unfold frameStep
  have h1 : (f.events.foldl handleEvent (initialGame ss)).zombie = none :=
    foldl_handleEvent_zombie_none f.events (initialGame ss) rfl
  have h2 : (f.events.foldl handleEvent (initialGame ss)).next_spawn_time = 0 :=
    foldl_handleEvent_next_spawn_time f.events (initialGame ss)
  have hspawn : spawnStep (f.events.foldl handleEvent (initialGame ss)) f =
      { f.events.foldl handleEvent (initialGame ss) with
          zombie := some (Zombie.init f.spawn_pos f.spawn_tick f.spawn_lifetime) } := by
    unfold spawnStep
    rw [if_pos ⟨h1, by rw [h2]; exact h⟩]
  rw [hspawn]
  unfold updateStep
  simp only
  have hnd : ((Zombie.init f.spawn_pos f.spawn_tick f.spawn_lifetime).update
      f.now).state ≠ ZState.dead :=
    update_spawning_not_dead _ _ rfl
  rw [if_neg hnd]
  rfl

/-- Witness for C10: the concrete first frame at clock 0 spawns. -/
theorem first_frame_spawn_witness :
    (0 : ℤ) ≤ (noClickFrame 0).now ∧
      ((initialGame false).next_spawn_time = 0 ∧
        ((frameStep (initialGame false) (noClickFrame 0)).zombie).isSome = true) :=
  ⟨by decide, first_frame_spawn false (noClickFrame 0) (by decide)⟩

/-- C5.  `hit_test` succeeds exactly when the Euclidean distance from the
click point to the entity's centre is at most `radius * 0.95`, and its
result depends only on the entity's position and radius: two entities
agreeing on `x`, `y`, `radius` give the same answer on the same point, no
matter their state, hit flag or timing fields. -/
theorem hit_test_dist (z : Zombie) (p : ℤ × ℤ) (hr : 0 ≤ z.radius) :
    (z.hit_test p = true ↔
        Real.sqrt ((((p.1 - z.x) ^ 2 + (p.2 - z.y) ^ 2 : ℤ) : ℝ)) ≤
          (z.radius : ℝ) * 0.95) ∧
    ∀ w : Zombie, w.x = z.x → w.y = z.y → w.radius = z.radius →
      w.hit_test p = z.hit_test p := by
  constructor
  · have h095 : (0 : ℝ) ≤ (z.radius : ℝ) * 0.95 := by
      have hz : (0 : ℝ) ≤ (z.radius : ℝ) := by exact_mod_cast hr
      have h9 : (0 : ℝ) ≤ (0.95 : ℝ) := by norm_num
      exact mul_nonneg hz h9
    rw [Zombie.hit_test, decide_eq_true_eq, Real.sqrt_le_left h095]
    constructor
    · intro hle
      have h' : ((400 * ((p.1 - z.x) ^ 2 + (p.2 - z.y) ^ 2) : ℤ) : ℝ) ≤
          ((361 * z.radius ^ 2 : ℤ) : ℝ) := by exact_mod_cast hle
      push_cast at h' ⊢
      ring_nf at h' ⊢
      linarith
    · intro hle
      have h' : ((400 * ((p.1 - z.x) ^ 2 + (p.2 - z.y) ^ 2) : ℤ) : ℝ) ≤
          ((361 * z.radius ^ 2 : ℤ) : ℝ) := by
        push_cast
        push_cast at hle
        ring_nf at hle ⊢
        linarith
      exact_mod_cast h'
  · intro w hx hy hrad
    simp [Zombie.hit_test, hx, hy, hrad]

/-- Witness for C5: a click 45 px right of the centre of a radius-48
zombie (45 ≤ 45.6). -/
theorem hit_test_dist_witness :
    (0 : ℤ) ≤ (Zombie.init (150, 160) 0 1000).radius ∧
      (((Zombie.init (150, 160) 0 1000).hit_test (195, 160) = true ↔
          Real.sqrt (((((195, 160) : ℤ × ℤ).1 - (Zombie.init (150, 160) 0 1000).x) ^ 2 +
              (((195, 160) : ℤ × ℤ).2 - (Zombie.init (150, 160) 0 1000).y) ^ 2 : ℤ) : ℝ) ≤
            ((Zombie.init (150, 160) 0 1000).radius : ℝ) * 0.95) ∧
        ∀ w : Zombie, w.x = (Zombie.init (150, 160) 0 1000).x →
          w.y = (Zombie.init (150, 160) 0 1000).y →
          w.radius = (Zombie.init (150, 160) 0 1000).radius →
            w.hit_test (195, 160) = (Zombie.init (150, 160) 0 1000).hit_test (195, 160)) :=
  ⟨by decide, hit_test_dist (Zombie.init (150, 160) 0 1000) (195, 160) (by decide)⟩

/-- C6.  The no-click scenario: a zombie spawned at `t = 0` with lifetime
1000 ms is Spawning until 180 ms have passed (still Spawning at frame
179, Alive at frame 180), Alive until 1000 ms since spawn (still Alive at
999, Despawning at 1000 — measured from the spawn timestamp, not from
entering Alive), Despawning until 220 ms in state (still Despawning at
1219, Dead and released at 1220), with `hits` and `misses` untouched. -/
theorem scenario_no_click_timeline :
    (runFrames (initialGame false) (noClickFrames.take 1)).zombie.map Zombie.state
        = some ZState.spawning ∧
    (runFrames (initialGame false) (noClickFrames.take 3)).zombie.map Zombie.state
        = some ZState.spawning ∧
    (runFrames (initialGame false) (noClickFrames.take 4)).zombie.map Zombie.state
        = some ZState.alive ∧
    (runFrames (initialGame false) (noClickFrames.take 5)).zombie.map Zombie.state
        = some ZState.alive ∧
    (runFrames (initialGame false) (noClickFrames.take 6)).zombie.map Zombie.state
        = some ZState.despawning ∧
    (runFrames (initialGame false) (noClickFrames.take 7)).zombie.map Zombie.state
        = some ZState.despawning ∧
    (runFrames (initialGame false) noClickFrames).zombie = none ∧
    (runFrames (initialGame false) noClickFrames).next_spawn_time = 1220 + 300 ∧
    (runFrames (initialGame false) noClickFrames).hits = 0 ∧
    (runFrames (initialGame false) noClickFrames).misses = 0 := by
  decide

/-- C7.  The spawn scheduler: a zombie is created exactly when the slot
is empty and `now` has reached `next_spawn_time`, positioned at the
`random.choice` draw from `SPAWN_POINTS` (a list of 12 distinct points,
so at least 6) with the `random.randint(800, 1500)` lifetime draw; and
when the owned zombie's update reaches Dead, the slot is released in the
same frame and `next_spawn_time` becomes `now` plus the
`random.randint(220, 520)` gap draw.  The random draws are modelled as
oracle inputs constrained to the ranges those primitives return. -/
theorem spawn_scheduler_spec (g : Game) (f : Frame)
    (hpos : f.spawn_pos ∈ SPAWN_POINTS)
    (hlife₁ : SPAWN_MIN_MS ≤ f.spawn_lifetime)
    (hlife₂ : f.spawn_lifetime ≤ SPAWN_MAX_MS)
    (hgap₁ : 220 ≤ f.gap) (hgap₂ : f.gap ≤ 520) :
    (g.zombie = none ∧ f.now ≥ g.next_spawn_time →
        spawnStep g f =
          { g with
              zombie := some (Zombie.init f.spawn_pos f.spawn_tick f.spawn_lifetime) }) ∧
    (¬(g.zombie = none ∧ f.now ≥ g.next_spawn_time) → spawnStep g f = g) ∧
    ((Zombie.init f.spawn_pos f.spawn_tick f.spawn_lifetime).x,
      (Zombie.init f.spawn_pos f.spawn_tick f.spawn_lifetime).y) ∈ SPAWN_POINTS ∧
    SPAWN_MIN_MS ≤ (Zombie.init f.spawn_pos f.spawn_tick f.spawn_lifetime).lifetime_ms ∧
    (Zombie.init f.spawn_pos f.spawn_tick f.spawn_lifetime).lifetime_ms ≤ SPAWN_MAX_MS ∧
    (Zombie.init f.spawn_pos f.spawn_tick f.spawn_lifetime).state = ZState.spawning ∧
    SPAWN_POINTS.Nodup ∧ 6 ≤ SPAWN_POINTS.length ∧
    (∀ z : Zombie, g.zombie = some z → (z.update f.now).state = ZState.dead →
        updateStep g f =
          { g with zombie := none, next_spawn_time := f.now + f.gap } ∧
        220 ≤ f.gap ∧ f.gap ≤ 520) ∧
    (∀ z : Zombie, g.zombie = some z → (z.update f.now).state ≠ ZState.dead →
        updateStep g f = { g with zombie := some (z.update f.now) }) := by
  refine ⟨?_, ?_, ?_, hlife₁, hlife₂, rfl, by decide, by decide, ?_, ?_⟩
  · intro hcond
    unfold spawnStep
    rw [if_pos hcond]
  · intro hcond
    unfold spawnStep
    rw [if_neg hcond]
  · simpa using hpos
  · intro z hz hdead
    refine ⟨?_, hgap₁, hgap₂⟩
    unfold updateStep
    rw [hz]
    simp only
    rw [if_pos hdead]
  · intro z hz hnd
    unfold updateStep
    rw [hz]
    simp only
    rw [if_neg hnd]

/-- Witness for C7: the initial game with the concrete first frame. -/
theorem spawn_scheduler_spec_witness :
    ((noClickFrame 0).spawn_pos ∈ SPAWN_POINTS ∧
      SPAWN_MIN_MS ≤ (noClickFrame 0).spawn_lifetime ∧
      (noClickFrame 0).spawn_lifetime ≤ SPAWN_MAX_MS ∧
      220 ≤ (noClickFrame 0).gap ∧ (noClickFrame 0).gap ≤ 520) ∧
    (((initialGame false).zombie = none ∧
          (noClickFrame 0).now ≥ (initialGame false).next_spawn_time →
        spawnStep (initialGame false) (noClickFrame 0) =
          { initialGame false with
              zombie := some (Zombie.init (noClickFrame 0).spawn_pos
                (noClickFrame 0).spawn_tick (noClickFrame 0).spawn_lifetime) }) ∧
      (¬((initialGame false).zombie = none ∧
            (noClickFrame 0).now ≥ (initialGame false).next_spawn_time) →
        spawnStep (initialGame false) (noClickFrame 0) = initialGame false) ∧
      ((Zombie.init (noClickFrame 0).spawn_pos (noClickFrame 0).spawn_tick
          (noClickFrame 0).spawn_lifetime).x,
        (Zombie.init (noClickFrame 0).spawn_pos (noClickFrame 0).spawn_tick
          (noClickFrame 0).spawn_lifetime).y) ∈ SPAWN_POINTS ∧
      SPAWN_MIN_MS ≤ (Zombie.init (noClickFrame 0).spawn_pos (noClickFrame 0).spawn_tick
          (noClickFrame 0).spawn_lifetime).lifetime_ms ∧
      (Zombie.init (noClickFrame 0).spawn_pos (noClickFrame 0).spawn_tick
          (noClickFrame 0).spawn_lifetime).lifetime_ms ≤ SPAWN_MAX_MS ∧
      (Zombie.init (noClickFrame 0).spawn_pos (noClickFrame 0).spawn_tick
          (noClickFrame 0).spawn_lifetime).state = ZState.spawning ∧
      SPAWN_POINTS.Nodup ∧ 6 ≤ SPAWN_POINTS.length ∧
      (∀ z : Zombie, (initialGame false).zombie = some z →
          (z.update (noClickFrame 0).now).state = ZState.dead →
          updateStep (initialGame false) (noClickFrame 0) =
            { initialGame false with
                zombie := none
                next_spawn_time := (noClickFrame 0).now + (noClickFrame 0).gap } ∧
          220 ≤ (noClickFrame 0).gap ∧ (noClickFrame 0).gap ≤ 520) ∧
      (∀ z : Zombie, (initialGame false).zombie = some z →
          (z.update (noClickFrame 0).now).state ≠ ZState.dead →
          updateStep (initialGame false) (noClickFrame 0) =
            { initialGame false with zombie := some (z.update (noClickFrame 0).now) })) :=
  ⟨⟨by decide, by decide, by decide, by decide, by decide⟩,
    spawn_scheduler_spec (initialGame false) (noClickFrame 0)
      (by decide) (by decide) (by decide) (by decide) (by decide)⟩

/-- Counterexample for C9.  Two frames that agree on the frame-start
timestamp, the event queue, and every random draw, but whose mid-frame
`pygame.time.get_ticks()` reading inside `register_hit` differs, drive
the same game state to different results: the code re-queries the clock
mid-frame (lines 87 and 117 of the source), so frame-start agreement
does not determine the frame's outcome. -/
theorem clock_requery_cex :
    (clickFrame 100).now = (clickFrame 500).now ∧
    (clickFrame 100).events.map Prod.fst = (clickFrame 500).events.map Prod.fst ∧
    (clickFrame 100).spawn_pos = (clickFrame 500).spawn_pos ∧
    (clickFrame 100).spawn_tick = (clickFrame 500).spawn_tick ∧
    (clickFrame 100).spawn_lifetime = (clickFrame 500).spawn_lifetime ∧
    (clickFrame 100).gap = (clickFrame 500).gap ∧
    frameStep clickGame (clickFrame 100) ≠ frameStep clickGame (clickFrame 500) := by
  decide

/-- C9 (amended).  The state transitions inside `update(now)` use only
the frame-start timestamp (any timing field `update` writes equals `now`,
and it never touches `spawn_time`); but `register_hit` and the `Zombie`
constructor each stamp their own fresh `pygame.time.get_ticks()` reading,
so two runs produce identical state only when they also agree on those
mid-frame clock readings (together with the frame-start timestamp, the
event queue and the random draws). -/
theorem clock_usage_per_call (z : Zombie) (now t l : ℤ) (p : ℤ × ℤ)
    (g : Game) (f1 f2 : Frame)
    (hnow : f1.now = f2.now) (hev : f1.events = f2.events)
    (hpos : f1.spawn_pos = f2.spawn_pos) (htick : f1.spawn_tick = f2.spawn_tick)
    (hlife : f1.spawn_lifetime = f2.spawn_lifetime) (hgap : f1.gap = f2.gap) :
    ((z.update now).state_time = z.state_time ∨ (z.update now).state_time = now) ∧
    (z.update now).spawn_time = z.spawn_time ∧
    (z.register_hit t).state_time = t ∧
    (Zombie.init p t l).spawn_time = t ∧
    (Zombie.init p t l).state_time = t ∧
    frameStep g f1 = frameStep g f2 := by
  have hf : f1 = f2 := by
    cases f1
    cases f2
    simp_all
  refine ⟨?_, ?_, rfl, rfl, rfl, by rw [hf]⟩
  · unfold Zombie.update
    split
    · split
      · right; rfl
      · left; rfl
    · split
      · split
        · right; rfl
        · left; rfl
      · split
        · split
          · left; rfl
          · left; rfl
        · left; rfl
  · unfold Zombie.update
    split
    · split <;> rfl
    · split
      · split <;> rfl
      · split
        · split <;> rfl
        · rfl

/-- Witness for C9's amended theorem at concrete inputs. -/
theorem clock_usage_per_call_witness :
    ((noClickFrame 0).now = (noClickFrame 0).now ∧
      (noClickFrame 0).events = (noClickFrame 0).events) ∧
    ((((Zombie.init (150, 160) 0 1000).update 180).state_time =
          (Zombie.init (150, 160) 0 1000).state_time ∨
        ((Zombie.init (150, 160) 0 1000).update 180).state_time = 180) ∧
      ((Zombie.init (150, 160) 0 1000).update 180).spawn_time =
        (Zombie.init (150, 160) 0 1000).spawn_time ∧
      ((Zombie.init (150, 160) 0 1000).register_hit 77).state_time = 77 ∧
      (Zombie.init (300, 140) 77 900).spawn_time = 77 ∧
      (Zombie.init (300, 140) 77 900).state_time = 77 ∧
      frameStep (initialGame false) (noClickFrame 0) =
        frameStep (initialGame false) (noClickFrame 0)) :=
  ⟨⟨rfl, rfl⟩,
    clock_usage_per_call (Zombie.init (150, 160) 0 1000) 180 77 900 (300, 140)
      (initialGame false) (noClickFrame 0) (noClickFrame 0)
      rfl rfl rfl rfl rfl rfl⟩

end WhackAZombie
